import Mathlib

/-!
Verification of the `MyDefiProject` Solidity contract (a single-account
Compound-style position engine) and of the liquidity model described in its
design document.

The contract talks to three external collaborators, all black boxes:
a comptroller (`getAccountLiquidity`, `enterMarkets`), a price oracle
(`getUnderlyingPrice`) and per-asset cToken markets (`mint`, `redeem`,
`borrow`, `repayBorrow`).  The shallow embedding fixes the replies those
collaborators would give in an `Env` record and turns each contract function
into a pure function from `Env` and its arguments to
(list of mutating external calls issued, outcome).  A `require(cond, msg)`
whose condition fails is a revert, modelled as `Except.error`; the calls
issued before the revert are still recorded in the trace, since they were
submitted to the market (on a ledger they still cost a round trip and a fee
even when rolled back).

Addresses (`cTokenAddress`) and EVM words (`uint`) are modelled as `Nat`;
overflow plays no role in any function below (no arithmetic other than one
division, whose divide-by-zero revert is modelled explicitly in `evmDiv`).
-/

/-- Reply of `comptroller.getAccountLiquidity(account)`: an error code
(0 = success), the account liquidity and the account shortfall. -/
structure LiquidityReply where
  code : Nat
  liquidity : Nat
  shortfall : Nat
deriving Repr, DecidableEq

/-- The replies the external collaborators give during one call of the
contract.  `price` is `priceOracle.getUnderlyingPrice`, `underlying` is
`cToken.underlying()`, the `*Reply` fields are the result codes the
respective market methods return, and `borrowBalance` is the market-side
outstanding borrow per cToken (state the market holds; the contract itself
never reads it). -/
structure Env where
  accountLiquidity : LiquidityReply
  enterMarketsReply : Nat
  price : Nat → Nat
  underlying : Nat → Nat
  approveReply : Bool
  mintReply : Nat
  redeemReply : Nat
  borrowReply : Nat
  repayReply : Nat
  borrowBalance : Nat → Nat

/-- A mutating external call issued by the contract, with the cToken address
and amount it was issued with. -/
inductive MarketCall where
  | approve (cToken amount : Nat)
  | mint (cToken amount : Nat)
  | redeem (cToken shares : Nat)
  | enterMarkets (cToken : Nat)
  | borrow (cToken amount : Nat)
  | repay (cToken amount : Nat)
deriving Repr, DecidableEq

/-- Outcome of a reverting `require`; one constructor per distinct revert
site of the contract.  `divisionByZero` is the implicit Solidity panic of
`liquidity / underlyingPrice` when the divisor is zero. -/
inductive EngineError where
  | mintFailed
  | redeemFailed
  | enterMarketFailed
  | borrowFailed
  | repayFailed
  | comptrollerFailed
  | accountUnderwater
  | noCollateral
  | divisionByZero
deriving Repr, DecidableEq

/-- Trace of one contract call: the mutating external calls it issued, and
its outcome. -/
abbrev CallResult := List MarketCall × Except EngineError Unit

/-- `function supply(address cTokenAddress, uint underlyingAmount)`:
approves the cToken for the amount (the `bool` the ERC-20 returns is
ignored by the source), calls `cToken.mint(underlyingAmount)` and reverts
unless the returned result code is zero. -/
def supply (env : Env) (cTokenAddress underlyingAmount : Nat) : CallResult :=
  ([MarketCall.approve cTokenAddress underlyingAmount,
    MarketCall.mint cTokenAddress underlyingAmount],
   if env.mintReply = 0 then Except.ok () else Except.error EngineError.mintFailed)

/-- `function redeem(address cTokenAddress, cTokenAmount)` (the parameter
is untyped in the source; `uint` is the evident intent): calls
`cToken.redeem(cTokenAmount)` and reverts unless the returned result code
is zero.  No local check of any kind precedes the market call. -/
def redeem (env : Env) (cTokenAddress cTokenAmount : Nat) : CallResult :=
  ([MarketCall.redeem cTokenAddress cTokenAmount],
   if env.redeemReply = 0 then Except.ok () else Except.error EngineError.redeemFailed)

/-- `function enterMarket(address cTokenAddress)`: calls
`comptroller.enterMarkets([cTokenAddress])`, binding the reply to the array
variable `results`, then requires `result == 0` — `result` (singular) is
never declared in this function, so the require does not observe the
comptroller reply.  Modelled with `result` as the default value 0: the
check is dead and the function always succeeds. -/
def enterMarket (env : Env) (cTokenAddress : Nat) : CallResult :=
  let results := env.enterMarketsReply
  let result := 0
  ([MarketCall.enterMarkets cTokenAddress],
   if result = 0 then Except.ok () else Except.error EngineError.enterMarketFailed)

/-- `function borrow(address cTokenAddress, uint borrowAmount)`: calls
`cToken.borrow(borrowAmount)` and reverts unless the returned result code
is zero.  There is no local liquidity, shortfall or collateral check of any
kind before the market call. -/
def borrow (env : Env) (cTokenAddress borrowAmount : Nat) : CallResult :=
  ([MarketCall.borrow cTokenAddress borrowAmount],
   if env.borrowReply = 0 then Except.ok () else Except.error EngineError.borrowFailed)

/-- `function repayBorrow(address cTokenAddress, uint underlyingAmount)`:
approves the cToken, calls `cToken.repayBorrow(underlyingAmount)` binding
the reply to the misspelled `reault`, then requires `result == 0` —
`result` is never declared in this function, so the require does not
observe the market reply.  Modelled with `result` as the default value 0:
the check is dead and the function always succeeds.  The amount passed
through to the market is exactly `underlyingAmount`, with no clamping to
the outstanding borrow. -/
def repayBorrow (env : Env) (cTokenAddress underlyingAmount : Nat) : CallResult :=
  let reault := env.repayReply
  let result := 0
  ([MarketCall.approve cTokenAddress underlyingAmount,
    MarketCall.repay cTokenAddress underlyingAmount],
   if result = 0 then Except.ok () else Except.error EngineError.repayFailed)

/-- Solidity 0.7 unsigned division: reverts (panic) when the divisor is
zero, otherwise truncating division. -/
def evmDiv (a b : Nat) : Except EngineError Nat :=
  if b = 0 then Except.error EngineError.divisionByZero else Except.ok (a / b)

/-- `function getMaxBorrow(address cTokenAddress) view returns (uint)`:
queries `comptroller.getAccountLiquidity(address(this))` afresh, requires a
zero result code, a zero shortfall and a positive liquidity (in that
order), then returns `liquidity / priceOracle.getUnderlyingPrice(cToken)`.
The division is unguarded in the source; its zero-divisor revert is
modelled by `evmDiv`.  The function is a view: it issues no mutating
call. -/
def getMaxBorrow (env : Env) (cTokenAddress : Nat) : Except EngineError Nat :=
  let r := env.accountLiquidity
  if r.code = 0 then
    if r.shortfall = 0 then
      if r.liquidity > 0 then
        evmDiv r.liquidity (env.price cTokenAddress)
      else Except.error EngineError.noCollateral
    else Except.error EngineError.accountUnderwater
  else Except.error EngineError.comptrollerFailed

/-!
The contract delegates all liquidity accounting to the external comptroller;
the design document (§3, §4.3, §4.4) specifies the account-snapshot
computation the engine is meant to perform.  That computation is not part
of the source, so it is modelled here from the spec, to state the invariant
claims about it and to compare the source functions against the validation
rules of the spec.
-/

/-- Modelled from the spec: fixed scale of the collateral factor, a
fraction in `[0,1)` represented as `collateralFactorNum / factorScale`
(§3 fixes values to a documented fixed-point scale). -/
def factorScale : Nat := 1000

/-- Modelled from the spec: one per-asset `AccountPosition` of §3 —
supplied and borrowed amounts in underlying units, the oracle unit price,
the asset collateral factor numerator, and the entered-as-collateral flag
(`isCollateral` of §9). -/
structure SpecPosition where
  supplied : Nat
  borrowed : Nat
  price : Nat
  collateralFactorNum : Nat
  isCollateral : Bool
deriving Repr, DecidableEq

/-- Modelled from the spec (§4.3): factor-weighted collateral value of one
position — `supplied × price × collateral-factor`, counted only when the
asset is entered as collateral. -/
def collateralValue (p : SpecPosition) : Nat :=
  if p.isCollateral then p.supplied * p.price * p.collateralFactorNum / factorScale
  else 0

/-- Modelled from the spec (§4.3): borrow value of one position,
`borrowed × price`. -/
def borrowValue (p : SpecPosition) : Nat :=
  p.borrowed * p.price

/-- Modelled from the spec (§4.3): total factor-weighted collateral value
of an account, `Σ(collateral-value × collateral-factor)`. -/
def totalCollateralValue (ps : List SpecPosition) : Nat :=
  (ps.map collateralValue).sum

/-- Modelled from the spec (§4.3): total borrow value of an account,
`Σ(borrow-value)`. -/
def totalBorrowValue (ps : List SpecPosition) : Nat :=
  (ps.map borrowValue).sum

/-- Modelled from the spec (§3): the aggregate `AccountSnapshot`. -/
structure AccountSnapshot where
  totalCollateralValue : Nat
  totalBorrowValue : Nat
  liquidity : Nat
  shortfall : Nat
deriving Repr, DecidableEq

/-- Modelled from the spec (§4.3): assemble the `AccountSnapshot` —
`liquidity = max(collateral − borrow, 0)` and
`shortfall = max(borrow − collateral, 0)`, here as truncated `Nat`
subtraction. -/
def snapshot (ps : List SpecPosition) : AccountSnapshot :=
  let c := totalCollateralValue ps
  let b := totalBorrowValue ps
  ⟨c, b, c - b, b - c⟩

/-- Modelled from the spec (§7): the local `ValidationError` taxonomy. -/
inductive ValidationError where
  | insufficientCollateral
  | accountUnderwater
  | noCollateral
  | borrowExceedsLiquidity
deriving Repr, DecidableEq

/-- Modelled from the spec (§4.4 rule 3): local borrow validation on a
fresh snapshot — `AccountUnderwater` when shortfall is non-zero,
`NoCollateral` when liquidity is zero, `BorrowExceedsLiquidity` when
`amount × price > liquidity`. -/
def validateBorrow (ps : List SpecPosition) (price amount : Nat) :
    Option ValidationError :=
  let s := snapshot ps
  if s.shortfall ≠ 0 then some ValidationError.accountUnderwater
  else if s.liquidity = 0 then some ValidationError.noCollateral
  else if amount * price > s.liquidity then some ValidationError.borrowExceedsLiquidity
  else none

/-- A position with `amount` removed from its supplied balance (truncated
at zero), the simulation step of the withdraw rule of the spec. -/
def withdrawFrom (p : SpecPosition) (amount : Nat) : SpecPosition :=
  ⟨p.supplied - amount, p.borrowed, p.price, p.collateralFactorNum, p.isCollateral⟩

/-- Modelled from the spec (§4.4 rule 2): local withdraw validation for an
account `p :: rest`, withdrawing `amount` from `p` — simulate removing the
withdrawn value and fail with `InsufficientCollateral` when the recomputed
shortfall is non-zero (the `amount ≤ supplied` bound of the rule is a
separate precondition, stated in the theorems that need it). -/
def validateWithdraw (p : SpecPosition) (rest : List SpecPosition) (amount : Nat) :
    Option ValidationError :=
  if (snapshot (withdrawFrom p amount :: rest)).shortfall ≠ 0 then
    some ValidationError.insufficientCollateral
  else none

/-- A position with `amount` added to its supplied balance, the effect a
supply has on the account state the snapshot is computed from. -/
def addSupply (p : SpecPosition) (amount : Nat) : SpecPosition :=
  ⟨p.supplied + amount, p.borrowed, p.price, p.collateralFactorNum, p.isCollateral⟩

/-!  Concrete environments and account states used by the closed theorems:
a healthy account (`envOk`: liquidity 100, no shortfall, every market reply
0, unit price 2), a market that rejects borrows (`envFussy`), a market that
rejects everything (`envRejects`), an underwater account (`envUw`, matching
the position list `psUw`), an account with no collateral (`envNoColl`), a
zero oracle price (`envZeroPrice`), and a collateralized account one step
from shortfall (`envW` matching `psW`: 1000 supplied at price 1 and factor
0.75, 700 borrowed). -/

def envOk : Env :=
  ⟨⟨0, 100, 0⟩, 0, fun _ => 2, fun a => a, true, 0, 0, 0, 0, fun _ => 50⟩

def envFussy : Env :=
  ⟨⟨0, 100, 0⟩, 0, fun _ => 2, fun a => a, true, 0, 0, 1, 0, fun _ => 50⟩

def envRejects : Env :=
  ⟨⟨0, 100, 0⟩, 1, fun _ => 2, fun a => a, true, 1, 1, 1, 1, fun _ => 50⟩

def psUw : List SpecPosition :=
  [⟨0, 100, 1, 750, true⟩]

def envUw : Env :=
  ⟨⟨0, 0, 100⟩, 0, fun _ => 1, fun a => a, true, 0, 0, 0, 0, fun _ => 100⟩

def envNoColl : Env :=
  ⟨⟨0, 0, 0⟩, 0, fun _ => 1, fun a => a, true, 0, 0, 0, 0, fun _ => 0⟩

def envZeroPrice : Env :=
  ⟨⟨0, 100, 0⟩, 0, fun _ => 0, fun a => a, true, 0, 0, 0, 0, fun _ => 0⟩

def psW : List SpecPosition :=
  [⟨1000, 700, 1, 750, true⟩]

def envW : Env :=
  ⟨⟨0, 50, 0⟩, 0, fun _ => 1, fun a => a, true, 0, 0, 0, 0, fun _ => 700⟩

/-- C1: whenever the comptroller liquidity query succeeds with result code
0, zero shortfall and strictly positive liquidity, every value
`getMaxBorrow` returns is the integer quotient of the liquidity by the
oracle unit price of the asset, and with a positive price it does return
exactly that quotient.  The statement is universally quantified over the
environment, so the quotient is recomputed from the comptroller and oracle
replies of the current call — nothing is cached. -/
theorem getMaxBorrow_is_liquidity_div_price (env : Env) (c : Nat)
    (h1 : env.accountLiquidity.code = 0)
    (h2 : env.accountLiquidity.shortfall = 0)
    (h3 : 0 < env.accountLiquidity.liquidity) :
    (∀ v, getMaxBorrow env c = Except.ok v →
      v = env.accountLiquidity.liquidity / env.price c) ∧
    (0 < env.price c →
      getMaxBorrow env c = Except.ok (env.accountLiquidity.liquidity / env.price c)) := by
  unfold getMaxBorrow evmDiv
  by_cases hp : env.price c = 0 <;> simp [h1, h2, h3, hp]

/-- Witness for C1 at the concrete healthy environment `envOk`
(liquidity 100, price 2): the maximum borrow evaluates to 100 / 2. -/
theorem getMaxBorrow_is_liquidity_div_price_witness :
    getMaxBorrow envOk 1 = Except.ok (envOk.accountLiquidity.liquidity / envOk.price 1) :=
  (getMaxBorrow_is_liquidity_div_price envOk 1 rfl rfl (by decide)).2 (by decide)

/-- C10: when the comptroller query succeeds with zero shortfall and
positive liquidity but the oracle returns a zero unit price, `getMaxBorrow`
reaches the unguarded division and aborts with the division-by-zero
panic. -/
theorem getMaxBorrow_zero_price_aborts (env : Env) (c : Nat)
    (h1 : env.accountLiquidity.code = 0)
    (h2 : env.accountLiquidity.shortfall = 0)
    (h3 : 0 < env.accountLiquidity.liquidity)
    (h4 : env.price c = 0) :
    getMaxBorrow env c = Except.error EngineError.divisionByZero := by
  unfold getMaxBorrow evmDiv
  simp [h1, h2, h3, h4]

/-- Witness for C10 at `envZeroPrice` (liquidity 100, oracle price 0). -/
theorem getMaxBorrow_zero_price_aborts_witness :
    getMaxBorrow envZeroPrice 1 = Except.error EngineError.divisionByZero :=
  getMaxBorrow_zero_price_aborts envZeroPrice 1 rfl rfl (by decide) rfl

/-- C2: evaluation of the contract in `envRejects`, where every external
call replies with result code 1.  `supply`, `redeem` and `borrow` revert as
the claim requires, but `repayBorrow` and `enterMarket` succeed even
though the market rejected them: their requires read `result`, an
identifier those functions never assign the market reply to (the reply
goes to the misspelled `reault` and the array `results` respectively), so
the non-zero code is never checked. -/
theorem result_checks_dead_in_repay_and_enterMarket :
    envRejects.repayReply = 1 ∧
    envRejects.enterMarketsReply = 1 ∧
    (repayBorrow envRejects 1 10).2 = Except.ok () ∧
    (enterMarket envRejects 1).2 = Except.ok () ∧
    (supply envRejects 1 10).2 = Except.error EngineError.mintFailed ∧
    (redeem envRejects 1 10).2 = Except.error EngineError.redeemFailed ∧
    (borrow envRejects 1 10).2 = Except.error EngineError.borrowFailed :=
  ⟨rfl, rfl, rfl, rfl, rfl, rfl, rfl⟩

/-- Counterexample to C3: in `envOk` the market-side outstanding borrow is
50, yet a repay request of 100 submits the full 100 to the market — the
amount is not clamped to `min 100 50` — and the call succeeds. -/
theorem repay_not_clamped_counterexample :
    envOk.borrowBalance 1 = 50 ∧
    (repayBorrow envOk 1 100).1 =
      [MarketCall.approve 1 100, MarketCall.repay 1 100] ∧
    ¬ (100 = min 100 (envOk.borrowBalance 1)) ∧
    (repayBorrow envOk 1 100).2 = Except.ok () :=
  ⟨rfl, rfl, by decide, rfl⟩

/-- C3 amended: `repayBorrow` submits the requested amount to the market
unchanged — no clamping to the outstanding borrow happens anywhere in the
engine — and (because of the dead result check) the call always reports
success, whatever the outstanding borrow or the market reply. -/
theorem repayBorrow_forwards_amount_unclamped :
    ∀ (env : Env) (c a : Nat),
      (repayBorrow env c a).1 = [MarketCall.approve c a, MarketCall.repay c a] ∧
      (repayBorrow env c a).2 = Except.ok () :=
  fun _ _ _ => ⟨rfl, rfl⟩

/-- Counterexample to C4: in `envOk` (liquidity 100, price 2) the maximum
borrow is 50, yet borrowing 51 — whose value 102 exceeds the liquidity —
succeeds when the market accepts it, and in `envFussy` (same account, the
market replies 1) borrowing exactly the maximum fails; neither direction of
the claim holds, and no `BorrowExceedsLiquidity` error exists in the
code. -/
theorem borrow_liquidity_check_counterexample :
    getMaxBorrow envOk 1 = Except.ok 50 ∧
    51 * envOk.price 1 > envOk.accountLiquidity.liquidity ∧
    (borrow envOk 1 51).2 = Except.ok () ∧
    getMaxBorrow envFussy 1 = Except.ok 50 ∧
    50 * envFussy.price 1 ≤ envFussy.accountLiquidity.liquidity ∧
    (borrow envFussy 1 50).2 = Except.error EngineError.borrowFailed :=
  ⟨rfl, by decide, rfl, rfl, by decide, rfl⟩

/-- C4 amended: `borrow` performs no local liquidity validation at all — it
always issues the market borrow call with the requested amount and
succeeds exactly when the market result code is zero; the quotient
`liquidity / price` is computed only by `getMaxBorrow` and is not enforced
on `borrow`. -/
theorem borrow_delegates_to_market :
    ∀ (env : Env) (c a : Nat),
      (borrow env c a).1 = [MarketCall.borrow c a] ∧
      ((borrow env c a).2 = Except.ok () ↔ env.borrowReply = 0) := by
  intro env c a
  refine ⟨rfl, ?_⟩
  unfold borrow
  by_cases h : env.borrowReply = 0 <;> simp [h]

/-- Witness for the amended C4 at `envFussy`: its borrow reply is 1, and
the borrow outcome is accordingly not a success. -/
theorem borrow_delegates_to_market_witness :
    ¬ (borrow envFussy 1 50).2 = Except.ok () :=
  fun h =>
    absurd ((borrow_delegates_to_market envFussy 1 50).2.mp h) (by decide)

/-- Counterexample to C5: `envUw` has non-zero shortfall, yet a borrow of
amount 0 does not fail with an underwater error — it issues the market
call and succeeds.  The underwater and no-collateral requires exist only in
`getMaxBorrow`, not in `borrow`. -/
theorem borrow_underwater_counterexample :
    envUw.accountLiquidity.shortfall ≠ 0 ∧
    (borrow envUw 1 0).1 = [MarketCall.borrow 1 0] ∧
    (borrow envUw 1 0).2 = Except.ok () :=
  ⟨by decide, rfl, rfl⟩

/-- C5 amended: `borrow` itself performs no pre-checks and always issues
the market call; the underwater and no-collateral validations exist only in
`getMaxBorrow`, which (on a successful comptroller query) fails with the
underwater revert when shortfall is non-zero and with the no-collateral
revert when liquidity is zero, before consulting the oracle. -/
theorem borrow_prechecks_only_in_getMaxBorrow :
    (∀ (env : Env) (c a : Nat), (borrow env c a).1 = [MarketCall.borrow c a]) ∧
    (∀ (env : Env) (c : Nat), env.accountLiquidity.code = 0 →
      env.accountLiquidity.shortfall ≠ 0 →
      getMaxBorrow env c = Except.error EngineError.accountUnderwater) ∧
    (∀ (env : Env) (c : Nat), env.accountLiquidity.code = 0 →
      env.accountLiquidity.shortfall = 0 →
      env.accountLiquidity.liquidity = 0 →
      getMaxBorrow env c = Except.error EngineError.noCollateral) := by
  refine ⟨fun _ _ _ => rfl, ?_, ?_⟩
  · intro env c h1 h2
    unfold getMaxBorrow
    simp [h1, h2]
  · intro env c h1 h2 h3
    unfold getMaxBorrow
    simp [h1, h2, h3]

/-- Witness for the amended C5 at `envUw` (shortfall 100) and `envNoColl`
(liquidity 0, shortfall 0). -/
theorem borrow_prechecks_only_in_getMaxBorrow_witness :
    getMaxBorrow envUw 1 = Except.error EngineError.accountUnderwater ∧
    getMaxBorrow envNoColl 1 = Except.error EngineError.noCollateral :=
  ⟨borrow_prechecks_only_in_getMaxBorrow.2.1 envUw 1 rfl (by decide),
   borrow_prechecks_only_in_getMaxBorrow.2.2 envNoColl 1 rfl rfl rfl⟩

/-- Counterexample to C6: the account `psW` (1000 supplied at price 1 and
factor 0.75, 700 borrowed) has liquidity 50, matching the comptroller
reply in `envW`.  Withdrawing 100 (well below the supplied 1000) would
recompute to a non-zero shortfall, so the withdraw rule of the spec fails
with `InsufficientCollateral` — yet the contract `redeem` issues the market
call and succeeds. -/
theorem redeem_no_collateral_check_counterexample :
    validateWithdraw ⟨1000, 700, 1, 750, true⟩ [] 100 =
      some ValidationError.insufficientCollateral ∧
    (100 : Nat) ≤ 1000 ∧
    envW.accountLiquidity.liquidity = (snapshot psW).liquidity ∧
    envW.accountLiquidity.shortfall = (snapshot psW).shortfall ∧
    (redeem envW 1 100).1 = [MarketCall.redeem 1 100] ∧
    (redeem envW 1 100).2 = Except.ok () :=
  ⟨rfl, by decide, rfl, rfl, rfl, rfl⟩

/-- C6 amended: `redeem` performs no local validation — neither the bound
by the supplied balance nor the collateral simulation exist, and no
`InsufficientCollateral` error is ever produced; the share amount is
forwarded to the market unchanged and the call fails exactly when the
market result code is non-zero. -/
theorem redeem_delegates_to_market :
    ∀ (env : Env) (c a : Nat),
      (redeem env c a).1 = [MarketCall.redeem c a] ∧
      ((redeem env c a).2 = Except.ok () ↔ env.redeemReply = 0) := by
  intro env c a
  refine ⟨rfl, ?_⟩
  unfold redeem
  by_cases h : env.redeemReply = 0 <;> simp [h]

/-- Witness for the amended C6 at `envRejects` (redeem reply 1). -/
theorem redeem_delegates_to_market_witness :
    ¬ (redeem envRejects 1 100).2 = Except.ok () :=
  fun h =>
    absurd ((redeem_delegates_to_market envRejects 1 100).2.mp h) (by decide)

/-- C7: for every account state, the assembled snapshot has mutually
exclusive liquidity and shortfall (each positive only when the other is
zero; both are `Nat`, hence non-negative), and their difference equals the
total factor-weighted collateral value minus the total borrow value, as
integers. -/
theorem snapshot_invariant (ps : List SpecPosition) :
    (0 < (snapshot ps).liquidity → (snapshot ps).shortfall = 0) ∧
    (0 < (snapshot ps).shortfall → (snapshot ps).liquidity = 0) ∧
    ((snapshot ps).liquidity : Int) - ((snapshot ps).shortfall : Int) =
      (totalCollateralValue ps : Int) - (totalBorrowValue ps : Int) := by
  simp only [snapshot]
  omega

/-- Witness for C7 at the underwater account `psUw` (shortfall 100):
exclusivity forces its liquidity to be zero. -/
theorem snapshot_invariant_witness :
    (snapshot psUw).liquidity = 0 :=
  (snapshot_invariant psUw).2.1 (by decide)

/-- Supplying more never lowers the factor-weighted collateral value of a
position. -/
theorem collateralValue_le_addSupply (p : SpecPosition) (a : Nat) :
    collateralValue p ≤ collateralValue (addSupply p a) := by
  rcases p with ⟨s, b, pr, f, ic⟩
  cases ic
  · simp [collateralValue, addSupply]
  · simp only [collateralValue, addSupply, if_pos]
    gcongr
    omega

/-- Supplying more never lowers the total collateral value of an
account. -/
theorem totalCollateralValue_le_addSupply
    (ps1 : List SpecPosition) (p : SpecPosition) (a : Nat)
    (ps2 : List SpecPosition) :
    totalCollateralValue (ps1 ++ p :: ps2) ≤
      totalCollateralValue (ps1 ++ addSupply p a :: ps2) := by
  have h := collateralValue_le_addSupply p a
  simp only [totalCollateralValue, List.map_append, List.sum_append,
    List.map_cons, List.sum_cons]
  omega

/-- Supplying does not change the borrow value of any position, so the
total borrow value of the account is unchanged. -/
theorem totalBorrowValue_addSupply_eq
    (ps1 : List SpecPosition) (p : SpecPosition) (a : Nat)
    (ps2 : List SpecPosition) :
    totalBorrowValue (ps1 ++ addSupply p a :: ps2) =
      totalBorrowValue (ps1 ++ p :: ps2) := by
  simp [totalBorrowValue, addSupply, borrowValue]

/-- C8: the outcome of the contract `supply` depends only on the mint
result code — in particular on nothing the comptroller reports, so there
is no liquidity check — and in the snapshot model of the spec a supply of
any amount to any position never decreases liquidity, never increases
shortfall, and never creates shortfall where there was none. -/
theorem supply_no_liquidity_check_and_improves :
    (∀ (env1 env2 : Env) (c a : Nat), env1.mintReply = env2.mintReply →
      supply env1 c a = supply env2 c a) ∧
    (∀ (ps1 : List SpecPosition) (p : SpecPosition) (amount : Nat)
      (ps2 : List SpecPosition),
      (snapshot (ps1 ++ p :: ps2)).liquidity ≤
        (snapshot (ps1 ++ addSupply p amount :: ps2)).liquidity ∧
      (snapshot (ps1 ++ addSupply p amount :: ps2)).shortfall ≤
        (snapshot (ps1 ++ p :: ps2)).shortfall ∧
      ((snapshot (ps1 ++ p :: ps2)).shortfall = 0 →
        (snapshot (ps1 ++ addSupply p amount :: ps2)).shortfall = 0)) := by
  constructor
  · intro env1 env2 c a h
    unfold supply
    rw [h]
  · intro ps1 p amount ps2
    have hc := totalCollateralValue_le_addSupply ps1 p amount ps2
    have hb := totalBorrowValue_addSupply_eq ps1 p amount ps2
    simp only [snapshot]
    omega

/-- Witness for C8: two environments differing in everything but the mint
reply give the same supply trace, and supplying 500 to the collateralized
account of `psW` does not decrease its liquidity. -/
theorem supply_no_liquidity_check_and_improves_witness :
    supply envUw 1 5 = supply envOk 1 5 ∧
    (snapshot ([] ++ (⟨1000, 700, 1, 750, true⟩ : SpecPosition) :: [])).liquidity ≤
      (snapshot ([] ++ addSupply ⟨1000, 700, 1, 750, true⟩ 500 :: [])).liquidity :=
  ⟨supply_no_liquidity_check_and_improves.1 envUw envOk 1 5 rfl,
   (supply_no_liquidity_check_and_improves.2 [] ⟨1000, 700, 1, 750, true⟩ 500 []).1⟩

/-- Counterexample to C9: the borrow rule of the spec rejects a borrow of
5 on the underwater account `psUw` (whose snapshot matches the comptroller
reply in `envUw`), yet the contract still issues the mutating market call
for that request — local validation failures do reach the market. -/
theorem reject_before_submit_counterexample :
    validateBorrow psUw 1 5 = some ValidationError.accountUnderwater ∧
    envUw.accountLiquidity.liquidity = (snapshot psUw).liquidity ∧
    envUw.accountLiquidity.shortfall = (snapshot psUw).shortfall ∧
    (borrow envUw 1 5).1 = [MarketCall.borrow 1 5] ∧
    (borrow envUw 1 5).2 = Except.ok () :=
  ⟨rfl, rfl, rfl, rfl, rfl⟩

/-- C9 amended: the contract performs no local validation at all — every
operation unconditionally issues its mutating market call (supply and
repay also issue the ERC-20 approve first), for every environment and
amount, so a request the validation rules of the spec would reject still
reaches the market. -/
theorem every_request_reaches_market :
    ∀ (env : Env) (c a : Nat),
      (supply env c a).1 = [MarketCall.approve c a, MarketCall.mint c a] ∧
      (redeem env c a).1 = [MarketCall.redeem c a] ∧
      (borrow env c a).1 = [MarketCall.borrow c a] ∧
      (repayBorrow env c a).1 = [MarketCall.approve c a, MarketCall.repay c a] ∧
      (enterMarket env c).1 = [MarketCall.enterMarkets c] :=
  fun _ _ _ => ⟨rfl, rfl, rfl, rfl, rfl⟩
